import Mathlib

/-
Verification of the conversion engine of src/image.py (batch image
conversion tool): format registry, background removal, SVG export,
raster/PDF/document conversion and the dispatcher.

The Python functions are shallowly embedded as executable Lean
definitions.  External collaborators (Pillow, PyMuPDF, the filesystem)
are modelled explicitly: a filesystem is a list of written files plus a
writability oracle, Pillow decode results are carried by the source-file
model, and Pillow mode conversion is modelled as a mode relabelling
(its channel resampling is internal to the library and irrelevant to
the properties below).
-/

namespace ImageTool

/-- One RGBA pixel as Pillow exposes it through getdata: four integer
channels. -/
structure Pixel where
  r : Nat
  g : Nat
  b : Nat
  a : Nat
deriving DecidableEq, Repr

/-- Model of a decoded Pillow image: mode string, size, flattened pixel
data and the optional dpi metadata read by img.info.get. -/
structure PILImage where
  mode : String
  width : Nat
  height : Nat
  pixels : List Pixel
  dpi : Option (Nat × Nat)
deriving DecidableEq, Repr

/-- Model of Pillow Image.convert: records the requested mode.  The
per-channel resampling is internal to Pillow; the engine only ever
inspects the mode. -/
def PIL_convert (img : PILImage) (m : String) : PILImage :=
  { img with mode := m }

/-- The background test of src/image.py lines 263-265: all three channel
absolute differences to bg_color strictly below tolerance. -/
def isBackground (bg_color : Nat × Nat × Nat) (tolerance : Nat) (item : Pixel) : Bool :=
  decide (((item.r : Int) - (bg_color.1 : Int)).natAbs < tolerance) &&
  decide (((item.g : Int) - (bg_color.2.1 : Int)).natAbs < tolerance) &&
  decide (((item.b : Int) - (bg_color.2.2 : Int)).natAbs < tolerance)

/-- The for loop of remove_background (src/image.py lines 261-268):
newData starts empty and each pixel is appended either with alpha zeroed
(background) or unchanged. -/
def remove_background_loop (bg_color : Nat × Nat × Nat) (tolerance : Nat)
    (newData : List Pixel) : List Pixel → List Pixel
  | [] => newData
  | item :: rest =>
      if isBackground bg_color tolerance item then
        remove_background_loop bg_color tolerance (newData ++ [⟨item.r, item.g, item.b, 0⟩]) rest
      else
        remove_background_loop bg_color tolerance (newData ++ [item]) rest

/-- remove_background (src/image.py lines 249-270): convert to RGBA,
rewrite the pixel data through the loop above, put it back.  The Python
defaults are bg_color = (255,255,255) and tolerance = 30; callers of the
model pass them explicitly. -/
def remove_background (img : PILImage) (bg_color : Nat × Nat × Nat) (tolerance : Nat) :
    PILImage :=
  let img2 := PIL_convert img "RGBA"
  { img2 with pixels := remove_background_loop bg_color tolerance [] img2.pixels }

/-- Per-pixel action of the loop body, used to characterise the
accumulator recursion. -/
def remove_background_step (bg_color : Nat × Nat × Nat) (tolerance : Nat) (item : Pixel) :
    Pixel :=
  if isBackground bg_color tolerance item then ⟨item.r, item.g, item.b, 0⟩ else item

theorem remove_background_loop_eq_map (bg_color : Nat × Nat × Nat) (tolerance : Nat) :
    ∀ (l acc : List Pixel),
      remove_background_loop bg_color tolerance acc l =
        acc ++ l.map (remove_background_step bg_color tolerance) := by
  intro l
  induction l with
  | nil => intro acc; simp [remove_background_loop]
  | cons item rest ih =>
      intro acc
      by_cases h : isBackground bg_color tolerance item = true
      · rw [remove_background_loop, if_pos h, ih]
        simp [remove_background_step, h]
      · rw [remove_background_loop, if_neg h, ih]
        simp [remove_background_step, h]

/-- C1: For every input image, reference color and tolerance,
remove_background returns the image converted to RGBA in which every
pixel whose three channel-wise absolute differences to the reference
color are all strictly less than the tolerance has its alpha set to
exactly 0, and every other pixel retains its original channel values
(including its original alpha) unchanged. -/
theorem remove_background_pointwise (img : PILImage) (bg_color : Nat × Nat × Nat)
    (tolerance : Nat) :
    (remove_background img bg_color tolerance).mode = "RGBA" ∧
    (remove_background img bg_color tolerance).pixels.length =
      (PIL_convert img "RGBA").pixels.length ∧
    ∀ (i : Nat) (p : Pixel), (PIL_convert img "RGBA").pixels[i]? = some p →
      (remove_background img bg_color tolerance).pixels[i]? =
        some (if (((p.r : Int) - (bg_color.1 : Int)).natAbs < tolerance ∧
                  ((p.g : Int) - (bg_color.2.1 : Int)).natAbs < tolerance ∧
                  ((p.b : Int) - (bg_color.2.2 : Int)).natAbs < tolerance)
              then ⟨p.r, p.g, p.b, 0⟩ else p) := by
  refine ⟨rfl, ?_, ?_⟩
  · simp [remove_background, remove_background_loop_eq_map, PIL_convert]
  · intro i p hp
    have hmap : (remove_background img bg_color tolerance).pixels =
        (PIL_convert img "RGBA").pixels.map (remove_background_step bg_color tolerance) := by
      simp [remove_background, remove_background_loop_eq_map, PIL_convert]
    rw [hmap, List.getElem?_map, hp]
    simp only [Option.map_some']
    congr 1
    by_cases h : isBackground bg_color tolerance p = true
    · have hprop : ((p.r : Int) - (bg_color.1 : Int)).natAbs < tolerance ∧
          ((p.g : Int) - (bg_color.2.1 : Int)).natAbs < tolerance ∧
          ((p.b : Int) - (bg_color.2.2 : Int)).natAbs < tolerance := by
        simpa [isBackground, Bool.and_eq_true, decide_eq_true_iff, and_assoc] using h
      rw [remove_background_step, if_pos h, if_pos hprop]
    · have hprop : ¬ (((p.r : Int) - (bg_color.1 : Int)).natAbs < tolerance ∧
          ((p.g : Int) - (bg_color.2.1 : Int)).natAbs < tolerance ∧
          ((p.b : Int) - (bg_color.2.2 : Int)).natAbs < tolerance) := by
        intro hc
        apply h
        simp [isBackground, Bool.and_eq_true, decide_eq_true_iff, and_assoc]
        tauto
      rw [remove_background_step, if_neg h, if_neg hprop]

/-- Concrete image used in the witness for C1: a near-white pixel and a
grey pixel with a nontrivial alpha. -/
def c1Img : PILImage := ⟨"RGB", 2, 1, [⟨250, 250, 250, 255⟩, ⟨200, 200, 200, 7⟩], none⟩

/-- Witness for C1 at a concrete image: the near-white pixel gets alpha
0 with its color channels kept, the grey pixel is untouched. -/
theorem remove_background_pointwise_witness :
    (remove_background c1Img (255, 255, 255) 30).pixels[0]? = some ⟨250, 250, 250, 0⟩ ∧
    (remove_background c1Img (255, 255, 255) 30).pixels[1]? = some ⟨200, 200, 200, 7⟩ := by
  have h0 := (remove_background_pointwise c1Img (255, 255, 255) 30).2.2 0
    ⟨250, 250, 250, 255⟩ rfl
  have h1 := (remove_background_pointwise c1Img (255, 255, 255) 30).2.2 1
    ⟨200, 200, 200, 7⟩ rfl
  rw [h0, h1]
  constructor
  · decide
  · decide

/-- File contents as a byte list. -/
abbrev Bytes := List Nat

/-- Model of the output side of the filesystem: the files written so far
and a writability oracle for paths (permissions, missing directory, disk
full are all environment conditions the engine cannot influence). -/
structure FS where
  files : List (String × Bytes)
  writable : String → Bool

/-- Writing a file: succeeds and records the content when the path is
writable, otherwise raises (modelled as Except.error). -/
def write_file (fs : FS) (path : String) (data : Bytes) : Except String FS :=
  if fs.writable path then
    .ok { fs with files := (path, data) :: fs.files }
  else
    .error ("cannot write " ++ path)

/-- Keyword arguments the code passes to Pillow save: quality (JPEG
branch) and resolution (PDF branch). -/
structure SaveParams where
  quality : Option Nat
  resolution : Option Nat
deriving DecidableEq, Repr

/-- The encoder names under which the code ever calls Pillow save
(model of the external Pillow encoder registry).  "SVG" never reaches
save, and the document family names EXCEL / WORD / CSV are not Pillow
encoders, so saving under them raises. -/
def RASTER_SAVE_FORMATS : List String :=
  ["JPEG", "PNG", "BMP", "GIF", "TIFF", "WEBP", "ICO", "PPM", "TGA",
   "JPEG2000", "PDF", "HEIC"]

/-- Model of Pillow encoding an image to bytes: an injective record of
the format, save parameters and image content. -/
def PIL_encode (fmt : String) (params : SaveParams) (img : PILImage) : Bytes :=
  fmt.length :: params.quality.getD 0 :: params.resolution.getD 0 ::
    img.mode.length :: img.width :: img.height ::
    img.pixels.foldr (fun p acc => p.r :: p.g :: p.b :: p.a :: acc) []

/-- Model of img.save(out_path, fmt, ...): raises for a format that is
not a registered Pillow encoder, otherwise writes the encoded bytes
(raising when the path is not writable). -/
def PIL_save (fs : FS) (img : PILImage) (fmt : String) (params : SaveParams)
    (out_path : String) : Except String FS :=
  if RASTER_SAVE_FORMATS.contains fmt then
    write_file fs out_path (PIL_encode fmt params img)
  else
    .error ("unknown save format " ++ fmt)

/-- save_as_svg (src/image.py lines 272-295): remove the background with
the default reference color and tolerance, encode as PNG, embed into an
SVG document carrying the image size, and write it; a write failure is
caught and only logged (lines 290-295), so the function always returns.
The base64 step is an injective re-encoding and is absorbed into the
document model. -/
def save_as_svg (fs : FS) (img0 : PILImage) (output_path : String) : FS :=
  let img := remove_background img0 (255, 255, 255) 30
  let data := PIL_encode "PNG" ⟨none, none⟩ img
  let svg_str := img.width :: img.height :: data
  match write_file fs output_path svg_str with
  | .ok fs2 => fs2
  | .error _ => fs

/-- The mode-coercion test of convert_image_file (src/image.py line
310): JPEG, JPEG2000 and HEIC targets force RGB. -/
def imageNeedsRGB (output_format mode : String) : Bool :=
  (output_format == "JPEG" || output_format == "JPEG2000" || output_format == "HEIC") &&
    !(mode == "RGB")

/-- The mode-coercion test of convert_pdf_file (src/image.py line 348):
only JPEG and JPEG2000 targets force RGB. -/
def pdfPageNeedsRGB (output_format mode : String) : Bool :=
  (output_format == "JPEG" || output_format == "JPEG2000") && !(mode == "RGB")

/-- The per-image encode body of convert_image_file (src/image.py lines
310-320): coerce the mode, then dispatch on the output format (SVG
export, JPEG at quality 100, PDF with the dpi metadata defaulting to
300, otherwise default parameters). -/
def encode_image_unit (fs : FS) (img0 : PILImage) (out_path : String)
    (output_format : String) : Except String FS :=
  let img := if imageNeedsRGB output_format img0.mode then PIL_convert img0 "RGB" else img0
  if output_format = "SVG" then
    .ok (save_as_svg fs img out_path)
  else if output_format = "JPEG" then
    PIL_save fs img "JPEG" ⟨some 100, none⟩ out_path
  else if output_format = "PDF" then
    PIL_save fs img "PDF" ⟨none, some (img.dpi.getD (300, 300)).1⟩ out_path
  else
    PIL_save fs img output_format ⟨none, none⟩ out_path

/-- The per-page encode body of convert_pdf_file (src/image.py lines
348-360): same dispatch as the image body but with the PDF-path
mode-coercion test of line 348. -/
def encode_pdf_page_unit (fs : FS) (page_img0 : PILImage) (out_path : String)
    (output_format : String) : Except String FS :=
  let page_img :=
    if pdfPageNeedsRGB output_format page_img0.mode then PIL_convert page_img0 "RGB"
    else page_img0
  if output_format = "SVG" then
    .ok (save_as_svg fs page_img out_path)
  else if output_format = "JPEG" then
    PIL_save fs page_img "JPEG" ⟨some 100, none⟩ out_path
  else if output_format = "PDF" then
    PIL_save fs page_img "PDF" ⟨none, some (page_img.dpi.getD (300, 300)).1⟩ out_path
  else
    PIL_save fs page_img output_format ⟨none, none⟩ out_path

/-- One PDF page: the outcome of the render chain page.get_pixmap /
tobytes("png") / Image.open on it. -/
structure PDFPage where
  rendered : Except String PILImage

/-- A source file: its stem and suffix, its raw bytes (what shutil.copy
duplicates), and what Image.open respectively fitz.open yield on it. -/
structure SourceFile where
  stem : String
  ext : String
  bytes : Bytes
  asImage : Except String PILImage
  asPdf : Except String (List PDFPage)

/-- convert_image_file (src/image.py lines 298-321): open the image
(propagating a decode failure) and run the encode body on
output_folder / (stem + ext_out). -/
def convert_image_file (fs : FS) (f : SourceFile) (output_folder output_format ext_out : String) :
    Except String FS :=
  let out_path := output_folder ++ "/" ++ (f.stem ++ ext_out)
  match f.asImage with
  | .error e => .error e
  | .ok img => encode_image_unit fs img out_path output_format

/-- Output name of PDF page i (0-based loop index): stem_page(i+1)ext
(src/image.py line 350). -/
def pdf_page_out_name (base_name : String) (i : Nat) (ext_out : String) : String :=
  base_name ++ "_page" ++ toString (i + 1) ++ ext_out

/-- The body of the try block for one PDF page (src/image.py lines
344-362): render the page, then encode it under the 1-indexed page
name. -/
def convert_pdf_page (fs : FS) (base_name output_folder output_format ext_out : String)
    (i : Nat) (page : PDFPage) : Except String FS :=
  match page.rendered with
  | .error e => .error e
  | .ok page_img =>
      encode_pdf_page_unit fs page_img
        (output_folder ++ "/" ++ pdf_page_out_name base_name i ext_out) output_format

/-- The page loop of convert_pdf_file (src/image.py lines 343-364): a
successful page increments count, a failing page is logged and skipped;
the loop never raises. -/
def convert_pdf_loop (base_name output_folder output_format ext_out : String) :
    FS → Nat → Nat → List PDFPage → FS × Nat
  | fs, _, count, [] => (fs, count)
  | fs, i, count, page :: rest =>
      match convert_pdf_page fs base_name output_folder output_format ext_out i page with
      | .ok fs2 =>
          convert_pdf_loop base_name output_folder output_format ext_out fs2 (i + 1) (count + 1) rest
      | .error _ =>
          convert_pdf_loop base_name output_folder output_format ext_out fs (i + 1) count rest

/-- convert_pdf_file (src/image.py lines 323-365): an open failure is
logged and yields 0; otherwise run the page loop from index 0 and count
0 and return the count of successful pages. -/
def convert_pdf_file (fs : FS) (f : SourceFile) (output_folder output_format ext_out : String) :
    FS × Nat :=
  match f.asPdf with
  | .error _ => (fs, 0)
  | .ok pages => convert_pdf_loop f.stem output_folder output_format ext_out fs 0 0 pages

/-- convert_document_file (src/image.py lines 367-382): shutil.copy the
source bytes to output_folder / (stem + ext_out); a copy failure is
caught and only logged. -/
def convert_document_file (fs : FS) (f : SourceFile) (output_folder ext_out : String) : FS :=
  let out_path := output_folder ++ "/" ++ (f.stem ++ ext_out)
  match write_file fs out_path f.bytes with
  | .ok fs2 => fs2
  | .error _ => fs

/-- FORMAT_MAPPING (src/image.py lines 85-105): format name to
(Pillow format, output extension). -/
def FORMAT_MAPPING : List (String × String × String) :=
  [("JPEG", "JPEG", ".jpg"), ("JPG", "JPEG", ".jpg"), ("JPGE", "JPEG", ".jpg"),
   ("JFIF", "JPEG", ".jfif"), ("PNG", "PNG", ".png"), ("BMP", "BMP", ".bmp"),
   ("GIF", "GIF", ".gif"), ("TIFF", "TIFF", ".tiff"), ("WEBP", "WEBP", ".webp"),
   ("ICO", "ICO", ".ico"), ("PPM", "PPM", ".ppm"), ("TGA", "TGA", ".tga"),
   ("JPEG2000", "JPEG2000", ".jp2"), ("PDF", "PDF", ".pdf"), ("SVG", "SVG", ".svg"),
   ("HEIC", "HEIC", ".heic"), ("EXCEL", "EXCEL", ".xlsx"), ("WORD", "WORD", ".docx"),
   ("CSV", "CSV", ".csv")]

/-- FORMAT_MAPPING.get(selected_format, ("JPEG", ".jpg"))
(src/image.py line 394). -/
def FORMAT_MAPPING_get (selected_format : String) : String × String :=
  (FORMAT_MAPPING.lookup selected_format).getD ("JPEG", ".jpg")

/-- The document container extensions of src/image.py line 398. -/
def DOC_EXTS : List String := [".doc", ".docx", ".xlsx", ".xls", ".csv"]

/-- The document family target formats of src/image.py lines 399 and
404. -/
def DOC_FORMATS : List String := ["EXCEL", "WORD", "CSV"]

/-- ASCII lowercase of one character (model of Python str.lower for the
extension alphabet). -/
def char_toLower (c : Char) : Char :=
  if 65 ≤ c.toNat ∧ c.toNat ≤ 90 then Char.ofNat (c.toNat + 32) else c

/-- Executable model of Python str.lower on file suffixes. -/
def str_toLower (s : String) : String := String.mk (s.data.map char_toLower)

/-- convert_file (src/image.py lines 384-407): resolve the format with
the JPEG fallback, classify the source by its lowercase suffix, route to
the PDF / document / image strategy, raising (Except.error) on a
cross-family request. -/
def convert_file (fs : FS) (f : SourceFile) (output_folder selected_format : String) :
    Except String (FS × Nat) :=
  let fmtext := FORMAT_MAPPING_get selected_format
  let output_format := fmtext.1
  let ext_out := fmtext.2
  let ext_in := str_toLower f.ext
  if ext_in = ".pdf" then
    .ok (convert_pdf_file fs f output_folder output_format ext_out)
  else if DOC_EXTS.contains ext_in then
    if DOC_FORMATS.contains output_format then
      .ok (convert_document_file fs f output_folder ext_out, 1)
    else
      .error ("Cannot convert document file " ++ f.stem ++ f.ext ++ " to " ++
        output_format ++ " format.")
  else
    if DOC_FORMATS.contains output_format then
      .error ("Cannot convert image file " ++ f.stem ++ f.ext ++ " to " ++
        output_format ++ " format.")
    else
      match convert_image_file fs f output_folder output_format ext_out with
      | .ok fs2 => .ok (fs2, 1)
      | .error e => .error e

/-- The batch loop of ImageConverterApp.convert_files (src/image.py
lines 769-780): each file is converted inside a try block; a success
adds its artifact count, a failure appends an error message and the loop
moves on. -/
def convert_files_loop (output_folder selected_format : String) :
    FS → Nat → List String → List SourceFile → FS × Nat × List String
  | fs, count, errors, [] => (fs, count, errors)
  | fs, count, errors, f :: rest =>
      match convert_file fs f output_folder selected_format with
      | .ok r =>
          convert_files_loop output_folder selected_format r.1 (count + r.2) errors rest
      | .error e =>
          convert_files_loop output_folder selected_format fs count
            (errors ++ ["Error converting " ++ f.stem ++ f.ext ++ ": " ++ e]) rest

/-- convert_files (src/image.py lines 764-781): run the batch loop with
count 0 and no errors, returning the final filesystem, total count and
error list. -/
def convert_files (fs : FS) (files : List SourceFile) (output_folder selected_format : String) :
    FS × Nat × List String :=
  convert_files_loop output_folder selected_format fs 0 [] files

/-- C3: For every format name, resolving it against the format registry
never fails (the lookup is total): a name absent from FORMAT_MAPPING
yields the JPEG spec ("JPEG", ".jpg"), and a conversion requested with
an unresolved name behaves exactly like a conversion requested with
"JPEG", i.e. silently produces JPEG output. -/
theorem format_registry_fallback (name : String)
    (h : FORMAT_MAPPING.lookup name = none) :
    FORMAT_MAPPING_get name = ("JPEG", ".jpg") ∧
    ∀ (fs : FS) (f : SourceFile) (output_folder : String),
      convert_file fs f output_folder name = convert_file fs f output_folder "JPEG" := by
  have hget : FORMAT_MAPPING_get name = ("JPEG", ".jpg") := by
    simp [FORMAT_MAPPING_get, h]
  have hj : FORMAT_MAPPING_get "JPEG" = ("JPEG", ".jpg") := by decide
  refine ⟨hget, ?_⟩
  intro fs f output_folder
  simp only [convert_file, hget, hj]

/-- Witness for C3: the name "WEBM" is not registered, resolves to the
JPEG spec, and converting a file under it equals converting under
"JPEG". -/
theorem format_registry_fallback_witness :
    FORMAT_MAPPING_get "WEBM" = ("JPEG", ".jpg") ∧
    convert_file ⟨[], fun _ => true⟩ ⟨"a", ".csv", [1], .error "x", .error "y"⟩ "out" "WEBM" =
      convert_file ⟨[], fun _ => true⟩ ⟨"a", ".csv", [1], .error "x", .error "y"⟩ "out" "JPEG" := by
  have h := format_registry_fallback "WEBM" (by decide)
  exact ⟨h.1, h.2 ⟨[], fun _ => true⟩ ⟨"a", ".csv", [1], .error "x", .error "y"⟩ "out"⟩

/-- C4: the dispatcher rejects cross-family requests purely from the
source suffix and the resolved target format: a document-container
source with a non-document-family target, and a non-PDF non-document
(raster) source with a document-family target, both yield the
classification error.  The resulting error depends only on the file's
stem and suffix — the filesystem state and the file's contents (bytes,
decoded image, PDF pages) are universally quantified and absent from the
right-hand side, so the rejection happens before any I/O. -/
theorem convert_file_cross_family_guard (fs : FS) (f : SourceFile)
    (output_folder selected_format : String) :
    (DOC_EXTS.contains (str_toLower f.ext) = true →
      DOC_FORMATS.contains (FORMAT_MAPPING_get selected_format).1 = false →
      convert_file fs f output_folder selected_format =
        .error ("Cannot convert document file " ++ f.stem ++ f.ext ++ " to " ++
          (FORMAT_MAPPING_get selected_format).1 ++ " format.")) ∧
    (str_toLower f.ext ≠ ".pdf" →
      DOC_EXTS.contains (str_toLower f.ext) = false →
      DOC_FORMATS.contains (FORMAT_MAPPING_get selected_format).1 = true →
      convert_file fs f output_folder selected_format =
        .error ("Cannot convert image file " ++ f.stem ++ f.ext ++ " to " ++
          (FORMAT_MAPPING_get selected_format).1 ++ " format.")) := by
  constructor
  · intro h1 h2
    have hdisj : str_toLower f.ext = ".doc" ∨ str_toLower f.ext = ".docx" ∨
        str_toLower f.ext = ".xlsx" ∨ str_toLower f.ext = ".xls" ∨
        str_toLower f.ext = ".csv" := by
      simpa [DOC_EXTS] using h1
    have hpdf : str_toLower f.ext ≠ ".pdf" := by
      rcases hdisj with h | h | h | h | h <;> simp [h]
    simp only [convert_file, if_neg hpdf, h1, h2]
    simp
  · intro hpdf h1 h2
    simp only [convert_file, if_neg hpdf, h1, h2]
    simp

/-- Witness for C4 at concrete requests: a .png source with target EXCEL
and a .docx source with target JPEG are both rejected with the
classification error. -/
theorem convert_file_cross_family_guard_witness :
    convert_file ⟨[], fun _ => true⟩ ⟨"pic", ".png", [], .error "x", .error "y"⟩ "out" "EXCEL" =
      .error "Cannot convert image file pic.png to EXCEL format." ∧
    convert_file ⟨[], fun _ => true⟩ ⟨"doc", ".docx", [], .error "x", .error "y"⟩ "out" "JPEG" =
      .error "Cannot convert document file doc.docx to JPEG format." := by
  constructor
  · have h := (convert_file_cross_family_guard ⟨[], fun _ => true⟩
      ⟨"pic", ".png", [], .error "x", .error "y"⟩ "out" "EXCEL").2
      (by decide) (by decide) (by decide)
    rw [h]
    rfl
  · have h := (convert_file_cross_family_guard ⟨[], fun _ => true⟩
      ⟨"doc", ".docx", [], .error "x", .error "y"⟩ "out" "JPEG").1
      (by decide) (by decide)
    rw [h]
    rfl

/-- C7: For every document-container source with a document-family
target whose output path is writable, the dispatcher routes to
convert_document_file, which reports one artifact and duplicates the
source bytes verbatim at output_folder / (stem + target extension): the
new filesystem is the old one extended with exactly that file, whose
byte content equals the source's. -/
theorem convert_document_passthrough_verbatim (fs : FS) (f : SourceFile)
    (output_folder selected_format : String)
    (hext : DOC_EXTS.contains (str_toLower f.ext) = true)
    (hfmt : DOC_FORMATS.contains (FORMAT_MAPPING_get selected_format).1 = true)
    (hw : fs.writable
      (output_folder ++ "/" ++ (f.stem ++ (FORMAT_MAPPING_get selected_format).2)) = true) :
    convert_file fs f output_folder selected_format =
      .ok (⟨(output_folder ++ "/" ++ (f.stem ++ (FORMAT_MAPPING_get selected_format).2),
             f.bytes) :: fs.files, fs.writable⟩, 1) := by
  have hdisj : str_toLower f.ext = ".doc" ∨ str_toLower f.ext = ".docx" ∨
      str_toLower f.ext = ".xlsx" ∨ str_toLower f.ext = ".xls" ∨
      str_toLower f.ext = ".csv" := by
    simpa [DOC_EXTS] using hext
  have hpdf : str_toLower f.ext ≠ ".pdf" := by
    rcases hdisj with h | h | h | h | h <;> simp [h]
  simp only [convert_file, if_neg hpdf, hext, hfmt, convert_document_file, write_file, hw]
  simp

/-- Witness for C7: a .csv source converted with target CSV on a
writable filesystem yields exactly one artifact whose bytes are the
source bytes. -/
theorem convert_document_passthrough_verbatim_witness :
    convert_file ⟨[], fun _ => true⟩ ⟨"data", ".csv", [10, 20, 30], .error "x", .error "y"⟩
        "out" "CSV" =
      .ok (⟨[("out/data.csv", [10, 20, 30])], fun _ => true⟩, 1) := by
  have h := convert_document_passthrough_verbatim ⟨[], fun _ => true⟩
    ⟨"data", ".csv", [10, 20, 30], .error "x", .error "y"⟩ "out" "CSV"
    (by decide) (by decide) rfl
  rw [h]
  rfl

/-- Filesystem on which every write fails, for the C8 scenario. -/
def c8FS : FS := ⟨[], fun _ => false⟩

/-- A .csv source file for the C8 scenario. -/
def c8Doc : SourceFile := ⟨"data", ".csv", [1, 2, 3], .error "not an image", .error "not a pdf"⟩

/-- C8 counterexample: converting a .csv source to CSV on a filesystem
where every write fails (the IOFailure of the claim) still returns one
successful artifact with the filesystem unchanged — convert_document_file
catches the copy error (src/image.py lines 378-382) and convert_file
returns 1 regardless (line 402), contradicting the claim that the
conversion of the file fails. -/
theorem document_write_failure_counterexample :
    convert_file c8FS c8Doc "out" "CSV" = .ok (c8FS, 1) ∧
    c8FS.writable "out/data.csv" = false := ⟨rfl, rfl⟩

/-- C8 amended: if writing the duplicated output file fails during
document passthrough, the failure is logged and swallowed:
convert_document_file leaves the filesystem unchanged and the dispatcher
still reports 1 successful artifact, not a failure. -/
theorem document_write_failure_swallowed (fs : FS) (f : SourceFile)
    (output_folder selected_format : String)
    (hext : DOC_EXTS.contains (str_toLower f.ext) = true)
    (hfmt : DOC_FORMATS.contains (FORMAT_MAPPING_get selected_format).1 = true)
    (hw : fs.writable
      (output_folder ++ "/" ++ (f.stem ++ (FORMAT_MAPPING_get selected_format).2)) = false) :
    convert_file fs f output_folder selected_format = .ok (fs, 1) := by
  have hdisj : str_toLower f.ext = ".doc" ∨ str_toLower f.ext = ".docx" ∨
      str_toLower f.ext = ".xlsx" ∨ str_toLower f.ext = ".xls" ∨
      str_toLower f.ext = ".csv" := by
    simpa [DOC_EXTS] using hext
  have hpdf : str_toLower f.ext ≠ ".pdf" := by
    rcases hdisj with h | h | h | h | h <;> simp [h]
  simp only [convert_file, if_neg hpdf, hext, hfmt, convert_document_file, write_file, hw]
  simp

/-- Witness for the amended C8: an .xlsx source with target EXCEL on an
unwritable filesystem still reports one artifact. -/
theorem document_write_failure_swallowed_witness :
    convert_file c8FS ⟨"tab", ".xlsx", [9], .error "x", .error "y"⟩ "out" "EXCEL" =
      .ok (c8FS, 1) :=
  document_write_failure_swallowed c8FS ⟨"tab", ".xlsx", [9], .error "x", .error "y"⟩
    "out" "EXCEL" (by decide) (by decide) rfl

/-- C9: when writing the SVG output fails, the failure is swallowed:
for a raster source with target SVG whose output path is unwritable,
the dispatcher still reports success with 1 artifact and the filesystem
is unchanged; and a PDF page with target SVG whose write fails still
completes its per-page body successfully (so the page loop counts it). -/
theorem svg_write_failure_swallowed (fs : FS) (f : SourceFile) (output_folder : String)
    (img : PILImage)
    (hpdf : str_toLower f.ext ≠ ".pdf")
    (hdoc : DOC_EXTS.contains (str_toLower f.ext) = false)
    (himg : f.asImage = .ok img)
    (hw : fs.writable (output_folder ++ "/" ++ (f.stem ++ ".svg")) = false) :
    convert_file fs f output_folder "SVG" = .ok (fs, 1) ∧
    ∀ (base_name : String) (i : Nat) (page : PDFPage) (img2 : PILImage),
      page.rendered = .ok img2 →
      fs.writable (output_folder ++ "/" ++ pdf_page_out_name base_name i ".svg") = false →
      convert_pdf_page fs base_name output_folder "SVG" ".svg" i page = .ok fs := by
  constructor
  · have hfmt : FORMAT_MAPPING_get "SVG" = ("SVG", ".svg") := by decide
    simp only [convert_file, hfmt, if_neg hpdf, hdoc]
    simp only [convert_image_file, himg, encode_image_unit, imageNeedsRGB]
    simp [save_as_svg, write_file, hw]
    decide
  · intro base_name i page img2 hr hw2
    simp only [convert_pdf_page, hr, encode_pdf_page_unit, pdfPageNeedsRGB]
    simp [save_as_svg, write_file, hw2]

/-- Witness for C9: a .png source exported to SVG on an unwritable
filesystem still reports one artifact, and a rendered PDF page exported
to SVG on the same filesystem still completes its per-page body. -/
theorem svg_write_failure_swallowed_witness :
    convert_file c8FS ⟨"pic", ".png", [], .ok ⟨"RGB", 1, 1, [⟨9, 9, 9, 255⟩], none⟩,
        .error "y"⟩ "out" "SVG" = .ok (c8FS, 1) ∧
    convert_pdf_page c8FS "pic" "out" "SVG" ".svg" 0
        ⟨.ok ⟨"RGB", 1, 1, [⟨9, 9, 9, 255⟩], none⟩⟩ = .ok c8FS := by
  have h := svg_write_failure_swallowed c8FS
    ⟨"pic", ".png", [], .ok ⟨"RGB", 1, 1, [⟨9, 9, 9, 255⟩], none⟩, .error "y"⟩ "out"
    ⟨"RGB", 1, 1, [⟨9, 9, 9, 255⟩], none⟩ (by decide) (by decide) rfl rfl
  exact ⟨h.1, h.2 "pic" 0 ⟨.ok ⟨"RGB", 1, 1, [⟨9, 9, 9, 255⟩], none⟩⟩
    ⟨"RGB", 1, 1, [⟨9, 9, 9, 255⟩], none⟩ rfl rfl⟩

/-- Saving a rendered PDF page under a document-family format raises
inside Pillow: EXCEL, WORD and CSV are not registered encoders. -/
theorem encode_pdf_page_unit_doc_error (fs : FS) (img : PILImage) (out_path fmt : String)
    (hfmt : DOC_FORMATS.contains fmt = true) :
    encode_pdf_page_unit fs img out_path fmt = .error ("unknown save format " ++ fmt) := by
  have hdisj : fmt = "EXCEL" ∨ fmt = "WORD" ∨ fmt = "CSV" := by
    simpa [DOC_FORMATS] using hfmt
  rcases hdisj with h | h | h <;> subst h <;> rfl

/-- Under a document-family target format, every iteration of the PDF
page loop fails in its per-page handler, so the loop returns the
filesystem and count it started with. -/
theorem convert_pdf_loop_doc (base_name output_folder ext_out fmt : String)
    (hfmt : DOC_FORMATS.contains fmt = true) :
    ∀ (pages : List PDFPage) (fs : FS) (i count : Nat),
      convert_pdf_loop base_name output_folder fmt ext_out fs i count pages = (fs, count) := by
  intro pages
  induction pages with
  | nil => intro fs i count; rfl
  | cons page rest ih =>
      intro fs i count
      cases hr : page.rendered with
      | error e => simp [convert_pdf_loop, convert_pdf_page, hr, ih]
      | ok img =>
          simp [convert_pdf_loop, convert_pdf_page, hr,
            encode_pdf_page_unit_doc_error fs img _ fmt hfmt, ih]

/-- C10: a source with a .pdf suffix is routed to the PDF rasterizer
without any target-family check: for a document-family target the
dispatcher does not raise a classification error; instead every page's
encode attempt fails inside the per-page handler, and the dispatcher
returns success with artifact count 0 and the filesystem unchanged. -/
theorem pdf_doc_target_zero_pages (fs : FS) (f : SourceFile)
    (output_folder selected_format : String)
    (hext : str_toLower f.ext = ".pdf")
    (hfmt : DOC_FORMATS.contains (FORMAT_MAPPING_get selected_format).1 = true) :
    convert_file fs f output_folder selected_format = .ok (fs, 0) := by
  have h1 : convert_file fs f output_folder selected_format =
      .ok (convert_pdf_file fs f output_folder (FORMAT_MAPPING_get selected_format).1
        (FORMAT_MAPPING_get selected_format).2) := by
    simp [convert_file, hext]
  rw [h1]
  simp only [convert_pdf_file]
  cases hp : f.asPdf with
  | error e => rfl
  | ok pages =>
      dsimp only
      rw [convert_pdf_loop_doc _ _ _ _ hfmt]

/-- Witness for C10: a one-page .pdf source with target EXCEL yields
success with 0 artifacts and no write. -/
theorem pdf_doc_target_zero_pages_witness :
    convert_file ⟨[], fun _ => true⟩
        ⟨"m", ".pdf", [], .error "x", .ok [⟨.ok ⟨"RGB", 1, 1, [⟨0, 0, 0, 255⟩], none⟩⟩]⟩
        "out" "EXCEL" =
      .ok (⟨[], fun _ => true⟩, 0) :=
  pdf_doc_target_zero_pages ⟨[], fun _ => true⟩
    ⟨"m", ".pdf", [], .error "x", .ok [⟨.ok ⟨"RGB", 1, 1, [⟨0, 0, 0, 255⟩], none⟩⟩]⟩
    "out" "EXCEL" (by decide) (by decide)

/-- Filesystem and a non-RGB image for the C6 scenario. -/
def c6FS : FS := ⟨[], fun _ => true⟩

/-- A one-pixel RGBA image (not an opaque 3-channel model). -/
def c6Img : PILImage := ⟨"RGBA", 1, 1, [⟨1, 2, 3, 4⟩], none⟩

/-- C6 counterexample: for target encoder HEIC and an RGBA image, the
raster converter coerces to RGB (src/image.py line 310) but the PDF
per-page body does not (line 348 omits HEIC), so the two encode bodies
produce different outputs on the same image — the PDF rasterizer does
not apply the same mode-coercion rule for HEIC. -/
theorem pdf_heic_coercion_differs :
    pdfPageNeedsRGB "HEIC" "RGBA" = false ∧
    imageNeedsRGB "HEIC" "RGBA" = true ∧
    (encode_pdf_page_unit c6FS c6Img "out/p.heic" "HEIC").toOption.map (fun r => r.files) ≠
      (encode_image_unit c6FS c6Img "out/p.heic" "HEIC").toOption.map (fun r => r.files) := by
  refine ⟨rfl, rfl, ?_⟩
  decide

/-- C6 amended: the PDF rasterizer applies the same encoder-selection
and mode-coercion rules as the raster converter for every target format
except HEIC: for any non-HEIC format the per-unit encode bodies agree
exactly, while for HEIC the PDF path never coerces (its coercion list at
src/image.py line 348 is only JPEG and JPEG2000). -/
theorem pdf_encode_rules_agree_except_heic (fs : FS) (img : PILImage)
    (out_path fmt : String) (h : fmt ≠ "HEIC") :
    encode_pdf_page_unit fs img out_path fmt = encode_image_unit fs img out_path fmt ∧
    (∀ mode, pdfPageNeedsRGB fmt mode = imageNeedsRGB fmt mode) ∧
    (∀ mode, pdfPageNeedsRGB "HEIC" mode = false) := by
  have hb : (fmt == "HEIC") = false := by
    simp [h]
  have h2 : ∀ mode, pdfPageNeedsRGB fmt mode = imageNeedsRGB fmt mode := by
    intro mode
    simp [pdfPageNeedsRGB, imageNeedsRGB, hb]
  refine ⟨?_, h2, ?_⟩
  · simp only [encode_pdf_page_unit, encode_image_unit, h2]
  · intro mode
    rfl

/-- Witness for the amended C6: for target JPEG the two encode bodies
agree on a concrete RGBA image. -/
theorem pdf_encode_rules_agree_except_heic_witness :
    encode_pdf_page_unit c6FS c6Img "out/p.jpg" "JPEG" =
      encode_image_unit c6FS c6Img "out/p.jpg" "JPEG" :=
  (pdf_encode_rules_agree_except_heic c6FS c6Img "out/p.jpg" "JPEG" (by decide)).1

theorem write_file_ok (fs : FS) (path : String) (data : Bytes) (fs2 : FS)
    (h : write_file fs path data = .ok fs2) :
    fs2.writable = fs.writable ∧ fs2.files = (path, data) :: fs.files ∧
      fs.writable path = true := by
  by_cases hw : fs.writable path = true
  · rw [write_file, if_pos hw] at h
    injection h with h2
    subst h2
    exact ⟨rfl, rfl, hw⟩
  · rw [write_file, if_neg hw] at h
    cases h

theorem save_as_svg_writable (fs : FS) (img0 : PILImage) (p : String) :
    (save_as_svg fs img0 p).writable = fs.writable := by
  by_cases hw : fs.writable p = true
  · simp [save_as_svg, write_file, hw]
  · simp [save_as_svg, write_file, hw]

theorem save_as_svg_files (fs : FS) (img0 : PILImage) (p : String) :
    (fs.writable p = false → save_as_svg fs img0 p = fs) ∧
    (fs.writable p = true → ∃ d, (save_as_svg fs img0 p).files = (p, d) :: fs.files) := by
  constructor
  · intro hw
    simp [save_as_svg, write_file, hw]
  · intro hw
    simp only [save_as_svg, write_file, hw, if_true]
    exact ⟨_, rfl⟩

theorem PIL_save_ok (fs : FS) (img : PILImage) (fmt : String) (params : SaveParams)
    (p : String) (fs2 : FS) (h : PIL_save fs img fmt params p = .ok fs2) :
    fs2.writable = fs.writable ∧ fs2.files = (p, PIL_encode fmt params img) :: fs.files ∧
      fs.writable p = true := by
  by_cases hc : RASTER_SAVE_FORMATS.contains fmt = true
  · rw [PIL_save, if_pos hc] at h
    exact write_file_ok fs p _ fs2 h
  · rw [PIL_save, if_neg hc] at h
    cases h

theorem encode_pdf_page_unit_ok (fs : FS) (img : PILImage) (p fmt : String) (fs2 : FS)
    (h : encode_pdf_page_unit fs img p fmt = .ok fs2) :
    fs2.writable = fs.writable ∧
    (fs2.files = fs.files ∨ ∃ d, fs2.files = (p, d) :: fs.files) ∧
    (fs.writable p = true → ∃ d, fs2.files = (p, d) :: fs.files) := by
  simp only [encode_pdf_page_unit] at h
  generalize (if pdfPageNeedsRGB fmt img.mode then PIL_convert img "RGB" else img) = img2 at h
  by_cases hsvg : fmt = "SVG"
  · rw [if_pos hsvg] at h
    injection h with h4
    subst h4
    refine ⟨save_as_svg_writable _ _ _, ?_, ?_⟩
    · by_cases hw : fs.writable p = true
      · exact Or.inr ((save_as_svg_files fs _ p).2 hw)
      · have hw2 : fs.writable p = false := by simpa using hw
        rw [(save_as_svg_files fs _ p).1 hw2]
        exact Or.inl rfl
    · intro hw
      exact (save_as_svg_files fs _ p).2 hw
  · rw [if_neg hsvg] at h
    by_cases hj : fmt = "JPEG"
    · rw [if_pos hj] at h
      obtain ⟨hwr, hfiles, hwp⟩ := PIL_save_ok _ _ _ _ _ _ h
      exact ⟨hwr, Or.inr ⟨_, hfiles⟩, fun _ => ⟨_, hfiles⟩⟩
    · rw [if_neg hj] at h
      by_cases hp2 : fmt = "PDF"
      · rw [if_pos hp2] at h
        obtain ⟨hwr, hfiles, hwp⟩ := PIL_save_ok _ _ _ _ _ _ h
        exact ⟨hwr, Or.inr ⟨_, hfiles⟩, fun _ => ⟨_, hfiles⟩⟩
      · rw [if_neg hp2] at h
        obtain ⟨hwr, hfiles, hwp⟩ := PIL_save_ok _ _ _ _ _ _ h
        exact ⟨hwr, Or.inr ⟨_, hfiles⟩, fun _ => ⟨_, hfiles⟩⟩

theorem convert_pdf_page_ok (fs : FS) (b d fmt e : String) (i : Nat) (page : PDFPage)
    (fs2 : FS) (h : convert_pdf_page fs b d fmt e i page = .ok fs2) :
    fs2.writable = fs.writable ∧
    (fs2.files = fs.files ∨
      ∃ dt, fs2.files = (d ++ "/" ++ pdf_page_out_name b i e, dt) :: fs.files) ∧
    (fs.writable (d ++ "/" ++ pdf_page_out_name b i e) = true →
      ∃ dt, fs2.files = (d ++ "/" ++ pdf_page_out_name b i e, dt) :: fs.files) := by
  unfold convert_pdf_page at h
  cases hr : page.rendered with
  | error er => rw [hr] at h; cases h
  | ok img =>
      rw [hr] at h
      exact encode_pdf_page_unit_ok _ _ _ _ _ h

theorem PIL_save_isOk (fs : FS) (img : PILImage) (fmt : String) (params : SaveParams)
    (p : String) :
    (PIL_save fs img fmt params p).isOk =
      (RASTER_SAVE_FORMATS.contains fmt && fs.writable p) := by
  cases hc : RASTER_SAVE_FORMATS.contains fmt with
  | false =>
      rw [PIL_save, if_neg (by simpa using hc)]
      simp [hc, Except.isOk, Except.toBool]
  | true =>
      rw [PIL_save, if_pos (by simpa using hc), write_file]
      cases hw : fs.writable p with
      | false =>
          rw [if_neg (by simp [hw])]
          simp [hc, hw, Except.isOk, Except.toBool]
      | true =>
          rw [if_pos (by simp [hw])]
          simp [hc, hw, Except.isOk, Except.toBool]

theorem PIL_save_isOk_congr (fs1 fs2 : FS) (img : PILImage) (fmt : String)
    (params : SaveParams) (p : String) (hww : fs1.writable = fs2.writable) :
    (PIL_save fs1 img fmt params p).isOk = (PIL_save fs2 img fmt params p).isOk := by
  rw [PIL_save_isOk, PIL_save_isOk, hww]

theorem encode_pdf_page_unit_isOk_congr (fs1 fs2 : FS) (img : PILImage) (p fmt : String)
    (hww : fs1.writable = fs2.writable) :
    (encode_pdf_page_unit fs1 img p fmt).isOk = (encode_pdf_page_unit fs2 img p fmt).isOk := by
  simp only [encode_pdf_page_unit]
  split_ifs <;>
    first
      | rfl
      | exact PIL_save_isOk_congr _ _ _ _ _ _ hww

theorem convert_pdf_page_isOk_congr (fs1 fs2 : FS) (b d fmt e : String) (i : Nat)
    (page : PDFPage) (hww : fs1.writable = fs2.writable) :
    (convert_pdf_page fs1 b d fmt e i page).isOk =
      (convert_pdf_page fs2 b d fmt e i page).isOk := by
  unfold convert_pdf_page
  cases page.rendered with
  | error er => rfl
  | ok img => exact encode_pdf_page_unit_isOk_congr _ _ _ _ _ hww

theorem convert_pdf_loop_count (b d fmt e : String) :
    ∀ (pages : List PDFPage) (fs : FS) (i count : Nat),
      (convert_pdf_loop b d fmt e fs i count pages).2 =
        count + ((List.range' i pages.length).zip pages).countP
          (fun ip => (convert_pdf_page fs b d fmt e ip.1 ip.2).isOk) := by
  intro pages
  induction pages with
  | nil => intro fs i count; simp [convert_pdf_loop]
  | cons page rest ih =>
      intro fs i count
      have hzip : (List.range' i (page :: rest).length).zip (page :: rest) =
          (i, page) :: (List.range' (i + 1) rest.length).zip rest := by
        simp [List.range'_succ]
      cases hc : convert_pdf_page fs b d fmt e i page with
      | ok fs2 =>
          have hww : fs2.writable = fs.writable :=
            (convert_pdf_page_ok fs b d fmt e i page fs2 hc).1
          have hfun : (fun ip : Nat × PDFPage =>
                (convert_pdf_page fs2 b d fmt e ip.1 ip.2).isOk) =
              (fun ip : Nat × PDFPage =>
                (convert_pdf_page fs b d fmt e ip.1 ip.2).isOk) := by
            funext ip
            exact convert_pdf_page_isOk_congr fs2 fs b d fmt e ip.1 ip.2 hww
          simp only [convert_pdf_loop, hc]
          rw [ih fs2 (i + 1) (count + 1), hfun, hzip, List.countP_cons]
          simp [hc, Except.isOk, Except.toBool]
          omega
      | error er =>
          simp only [convert_pdf_loop, hc]
          rw [ih fs (i + 1) count, hzip, List.countP_cons]
          simp [hc, Except.isOk, Except.toBool]

theorem convert_pdf_loop_files_mono (b d fmt e : String) :
    ∀ (pages : List PDFPage) (fs : FS) (i count : Nat) (x : String × Bytes),
      x ∈ fs.files → x ∈ (convert_pdf_loop b d fmt e fs i count pages).1.files := by
  intro pages
  induction pages with
  | nil => intro fs i count x hx; simpa [convert_pdf_loop] using hx
  | cons page rest ih =>
      intro fs i count x hx
      cases hc : convert_pdf_page fs b d fmt e i page with
      | ok fs2 =>
          simp only [convert_pdf_loop, hc]
          apply ih
          rcases (convert_pdf_page_ok fs b d fmt e i page fs2 hc).2.1 with hsame | ⟨dt, hcons⟩
          · rwa [hsame]
          · rw [hcons]
            exact List.mem_cons_of_mem _ hx
      | error er =>
          simp only [convert_pdf_loop, hc]
          exact ih fs (i + 1) count x hx

theorem convert_pdf_loop_mem (b d fmt e : String) :
    ∀ (pages : List PDFPage) (fs : FS) (i count j : Nat) (page : PDFPage),
      pages[j]? = some page →
      (convert_pdf_page fs b d fmt e (i + j) page).isOk = true →
      fs.writable (d ++ "/" ++ pdf_page_out_name b (i + j) e) = true →
      ∃ dt, (d ++ "/" ++ pdf_page_out_name b (i + j) e, dt) ∈
        (convert_pdf_loop b d fmt e fs i count pages).1.files := by
  intro pages
  induction pages with
  | nil => intro fs i count j page hj; simp at hj
  | cons page0 rest ih =>
      intro fs i count j page hj hok hw
      cases j with
      | zero =>
          simp only [Nat.add_zero] at hok hw ⊢
          have hj0 : page0 = page := by simpa using hj
          subst hj0
          cases hc : convert_pdf_page fs b d fmt e i page0 with
          | ok fs2 =>
              obtain ⟨dt, hcons⟩ :=
                (convert_pdf_page_ok fs b d fmt e i page0 fs2 hc).2.2 hw
              refine ⟨dt, ?_⟩
              simp only [convert_pdf_loop, hc]
              apply convert_pdf_loop_files_mono
              rw [hcons]
              exact List.mem_cons_self _ _
          | error er =>
              rw [hc] at hok
              simp [Except.isOk, Except.toBool] at hok
      | succ j2 =>
          have hidx : i + (j2 + 1) = (i + 1) + j2 := by omega
          rw [hidx] at hok hw ⊢
          have hj2 : rest[j2]? = some page := by simpa using hj
          cases hc : convert_pdf_page fs b d fmt e i page0 with
          | ok fs2 =>
              have hww : fs2.writable = fs.writable :=
                (convert_pdf_page_ok fs b d fmt e i page0 fs2 hc).1
              simp only [convert_pdf_loop, hc]
              have hok2 : (convert_pdf_page fs2 b d fmt e ((i + 1) + j2) page).isOk = true := by
                rw [convert_pdf_page_isOk_congr fs2 fs b d fmt e _ _ hww]
                exact hok
              have hw2 : fs2.writable (d ++ "/" ++ pdf_page_out_name b ((i + 1) + j2) e) = true := by
                rw [hww]
                exact hw
              exact ih fs2 (i + 1) (count + 1) j2 page hj2 hok2 hw2
          | error er =>
              simp only [convert_pdf_loop, hc]
              exact ih fs (i + 1) count j2 page hj2 hok hw

/-- C2: For every PDF that opens successfully, the page loop processes
every page in document order and never raises: the returned artifact
count equals the number of pages whose per-page render-and-encode
attempt succeeds (so one failing page is skipped without aborting the
rest and a 10-page PDF with one failing page yields 9), the count never
exceeds the page count, and each successful page's artifact is written
under the 1-indexed name stem_page(i+1)extension. -/
theorem convert_pdf_file_page_isolation (fs : FS) (f : SourceFile)
    (output_folder output_format ext_out : String) (pages : List PDFPage)
    (hopen : f.asPdf = .ok pages) :
    (convert_pdf_file fs f output_folder output_format ext_out).2 =
      ((List.range pages.length).zip pages).countP
        (fun ip => (convert_pdf_page fs f.stem output_folder output_format ext_out
          ip.1 ip.2).isOk) ∧
    (convert_pdf_file fs f output_folder output_format ext_out).2 ≤ pages.length ∧
    ∀ (i : Nat) (page : PDFPage), pages[i]? = some page →
      (convert_pdf_page fs f.stem output_folder output_format ext_out i page).isOk = true →
      fs.writable (output_folder ++ "/" ++ pdf_page_out_name f.stem i ext_out) = true →
      ∃ dt, (output_folder ++ "/" ++ pdf_page_out_name f.stem i ext_out, dt) ∈
        (convert_pdf_file fs f output_folder output_format ext_out).1.files := by
  have hr : convert_pdf_file fs f output_folder output_format ext_out =
      convert_pdf_loop f.stem output_folder output_format ext_out fs 0 0 pages := by
    simp [convert_pdf_file, hopen]
  refine ⟨?_, ?_, ?_⟩
  · rw [hr, convert_pdf_loop_count, List.range_eq_range']
    simp
  · rw [hr, convert_pdf_loop_count]
    have h1 := List.countP_le_length
      (fun ip : Nat × PDFPage =>
        (convert_pdf_page fs f.stem output_folder output_format ext_out ip.1 ip.2).isOk)
      (l := (List.range' 0 pages.length).zip pages)
    have h2 : ((List.range' 0 pages.length).zip pages).length = pages.length := by
      simp
    omega
  · intro i page hp hok hw
    rw [hr]
    have := convert_pdf_loop_mem f.stem output_folder output_format ext_out pages fs 0 0
      i page hp (by simpa using hok) (by simpa using hw)
    simpa using this

/-- A successfully rendering page for the C2 witness. -/
def c2Page : PDFPage := ⟨.ok ⟨"RGB", 1, 1, [⟨5, 5, 5, 255⟩], none⟩⟩

/-- A page whose rendering raises, for the C2 witness. -/
def c2Bad : PDFPage := ⟨.error "decode error"⟩

/-- A 10-page PDF source whose fifth page fails to render. -/
def c2Pdf : SourceFile :=
  ⟨"m", ".pdf", [], .error "not an image",
   .ok [c2Page, c2Page, c2Page, c2Page, c2Bad, c2Page, c2Page, c2Page, c2Page, c2Page]⟩

/-- Witness for C2: the 10-page PDF whose page 5 fails yields exactly 9
artifacts. -/
theorem convert_pdf_file_page_isolation_witness :
    (convert_pdf_file ⟨[], fun _ => true⟩ c2Pdf "out" "PNG" ".png").2 = 9 := by
  have h := (convert_pdf_file_page_isolation ⟨[], fun _ => true⟩ c2Pdf "out" "PNG" ".png"
    [c2Page, c2Page, c2Page, c2Page, c2Bad, c2Page, c2Page, c2Page, c2Page, c2Page] rfl).1
  rw [h]
  decide

theorem convert_files_loop_errors_acc (output_folder selected_format : String) :
    ∀ (files : List SourceFile) (fs : FS) (count : Nat) (errors : List String),
      convert_files_loop output_folder selected_format fs count errors files =
        ((convert_files_loop output_folder selected_format fs count [] files).1,
         (convert_files_loop output_folder selected_format fs count [] files).2.1,
         errors ++ (convert_files_loop output_folder selected_format fs count [] files).2.2) := by
  intro files
  induction files with
  | nil => intro fs count errors; simp [convert_files_loop]
  | cons f rest ih =>
      intro fs count errors
      cases hc : convert_file fs f output_folder selected_format with
      | ok r =>
          simp only [convert_files_loop, hc]
          exact ih r.1 (count + r.2) errors
      | error e =>
          simp only [convert_files_loop, hc]
          rw [ih fs count
            (errors ++ ["Error converting " ++ f.stem ++ f.ext ++ ": " ++ e]),
            ih fs count ([] ++ ["Error converting " ++ f.stem ++ f.ext ++ ": " ++ e])]
          simp

/-- C5: one failing file never escapes the batch loop as an exception
and never aborts its siblings: when convert_file raises on the head
file, convert_files on the whole batch produces exactly the filesystem
and artifact count that the remaining files alone produce, with the
failure reported as data — an error message prepended to the error
list. -/
theorem convert_files_batch_isolation (fs : FS) (f : SourceFile) (files : List SourceFile)
    (output_folder selected_format : String) (e : String)
    (h : convert_file fs f output_folder selected_format = .error e) :
    convert_files fs (f :: files) output_folder selected_format =
      ((convert_files fs files output_folder selected_format).1,
       (convert_files fs files output_folder selected_format).2.1,
       ("Error converting " ++ f.stem ++ f.ext ++ ": " ++ e) ::
         (convert_files fs files output_folder selected_format).2.2) := by
  simp only [convert_files, convert_files_loop, h]
  rw [convert_files_loop_errors_acc output_folder selected_format files fs 0
    ([] ++ ["Error converting " ++ f.stem ++ f.ext ++ ": " ++ e])]
  simp

/-- A raster source that the batch converts under target EXCEL, hence a
classification failure. -/
def c5Bad : SourceFile := ⟨"pic", ".png", [], .error "x", .error "y"⟩

/-- A document source that converts successfully under target EXCEL. -/
def c5Good : SourceFile := ⟨"tab", ".xlsx", [5], .error "x", .error "y"⟩

/-- Witness for C5: in the batch [c5Bad, c5Good] with target EXCEL, the
bad file's failure is reported as data and the sibling is still
converted: one artifact, one error message. -/
theorem convert_files_batch_isolation_witness :
    convert_files ⟨[], fun _ => true⟩ [c5Bad, c5Good] "out" "EXCEL" =
      ((convert_files ⟨[], fun _ => true⟩ [c5Good] "out" "EXCEL").1,
       (convert_files ⟨[], fun _ => true⟩ [c5Good] "out" "EXCEL").2.1,
       ("Error converting pic.png: Cannot convert image file pic.png to EXCEL format.") ::
         (convert_files ⟨[], fun _ => true⟩ [c5Good] "out" "EXCEL").2.2) ∧
    (convert_files ⟨[], fun _ => true⟩ [c5Good] "out" "EXCEL").2.1 = 1 := by
  constructor
  · exact convert_files_batch_isolation ⟨[], fun _ => true⟩ c5Bad [c5Good] "out" "EXCEL"
      "Cannot convert image file pic.png to EXCEL format." rfl
  · rfl

end ImageTool
